import Mathlib

/-!
Verification of the session / delivery core of the whatsapp-multi service.

The definitions below are shallow embeddings of the JavaScript source
(`src/services/whatsappService.js`, present in the repository as the
documents in `src/unnamed/part_000` and `src/unnamed/part_001`, plus
`src/src/config.js`).  Per-chat buffering, chunk flushing with failure
requeue, the reconnection policy, the reconnection-attempt counter, the
orphaned-restoration sweep and the teardown paths are modelled as pure
state-transition functions; the single-threaded JavaScript event loop
with explicit `await` points is modelled by an explicit event trace
(enqueue / flush dispatch / send completion), so that a send that is in
flight while further messages arrive is representable.
-/

namespace WhatsappMulti

/- ===================================================================
   Message delivery pipeline
   (whatsappService.handleMessage / sendMessageChunk,
    src/unnamed/part_001 lines 592-663, src/unnamed/part_000 lines 2330-2389)

   State of one chat's buffer.  `buffer` is messageBuffer[chatId]
   (absent map entry and empty array behave identically in the source,
   both modelled as []); `timer` is whether chunkTimers[chatId] holds an
   armed timer; `inflight` are batches captured by sendMessageChunk
   whose webhook send has not yet completed (in dispatch order);
   `delivered` are the batches whose send completed successfully, in
   completion order.
   =================================================================== -/

structure ChatState (α : Type) where
  buffer : List α
  timer : Bool
  inflight : List (List α)
  delivered : List (List α)
deriving Repr, DecidableEq

def initChatState {α : Type} : ChatState α := ⟨[], false, [], []⟩

/-- Synchronous part of sendMessageChunk: clear the chat's timer; if the
buffer is empty do nothing further; otherwise capture the buffer as a
batch, reset the buffer, and dispatch the batch downstream (it becomes
in-flight until its completion event). -/
def sendMessageChunk {α : Type} (s : ChatState α) : ChatState α :=
  if s.buffer.isEmpty then { s with timer := false }
  else { s with timer := false, buffer := [], inflight := s.inflight ++ [s.buffer] }

/-- Buffering logic of handleMessage after filtering: append the message
to the chat's buffer; if the buffer reached messageChunkSize, flush
immediately; otherwise arm a timer if none is armed. -/
def handleMessage {α : Type} (chunkSize : Nat) (m : α) (s : ChatState α) : ChatState α :=
  if chunkSize ≤ s.buffer.length + 1 then sendMessageChunk { s with buffer := s.buffer ++ [m] }
  else if s.timer then { s with buffer := s.buffer ++ [m] }
  else { s with buffer := s.buffer ++ [m], timer := true }

/-- Completion of the webhook send of the i-th in-flight batch.  On
success the batch is delivered; on failure the source executes
messageBuffer[chatId] = [...messageBuffer[chatId], ...messages], i.e.
the failed batch is appended BEHIND whatever was enqueued while the send
was in flight.  No timer is armed by the failure path. -/
def completeSend {α : Type} (i : Nat) (ok : Bool) (s : ChatState α) : ChatState α :=
  match s.inflight.get? i with
  | none => s
  | some b =>
    if ok then { s with inflight := s.inflight.eraseIdx i, delivered := s.delivered ++ [b] }
    else { s with inflight := s.inflight.eraseIdx i, buffer := s.buffer ++ b }

/-- Atomic happenings at one chat, in event-loop order: a message is
enqueued, a flush is dispatched (timer fire or size/forced trigger), or
an in-flight send completes with success or failure. -/
inductive ChatEvent (α : Type) where
  | enqueue (m : α)
  | flush
  | complete (i : Nat) (ok : Bool)
deriving Repr, DecidableEq

def chatStep {α : Type} (chunkSize : Nat) (s : ChatState α) : ChatEvent α → ChatState α
  | ChatEvent.enqueue m => handleMessage chunkSize m s
  | ChatEvent.flush => sendMessageChunk s
  | ChatEvent.complete i ok => completeSend i ok s

def chatRun {α : Type} (chunkSize : Nat) (s : ChatState α) (evs : List (ChatEvent α)) :
    ChatState α :=
  evs.foldl (chatStep chunkSize) s

/-- The messages enqueued by a trace, in enqueue order. -/
def enqueuedOf {α : Type} : List (ChatEvent α) → List α
  | [] => []
  | ChatEvent.enqueue m :: es => m :: enqueuedOf es
  | ChatEvent.flush :: es => enqueuedOf es
  | ChatEvent.complete _ _ :: es => enqueuedOf es

/-- All messages currently accounted for by the pipeline: delivered
(successful batches, in completion order), then in flight, then buffered. -/
def totalMsgs {α : Type} (s : ChatState α) : List α :=
  s.delivered.flatten ++ s.inflight.flatten ++ s.buffer

/-- A trace is FIFO-successful when every completion event completes the
oldest in-flight batch and succeeds. -/
def fifoOk {α : Type} (evs : List (ChatEvent α)) : Bool :=
  evs.all fun e => match e with
    | ChatEvent.complete i ok => decide (i = 0) && ok
    | _ => true

/-- The message contributed by one event (enqueue contributes its
message, the other events none). -/
def enqHit {α : Type} : ChatEvent α → List α
  | ChatEvent.enqueue m => [m]
  | ChatEvent.flush => []
  | ChatEvent.complete _ _ => []

/- ===================================================================
   Reconnection policy
   (whatsappService.handleAutomaticReconnection,
    src/unnamed/part_000 lines 1947-2004, src/unnamed/part_001 lines
    1528-1589, identical in both snapshots).
   =================================================================== -/

def listStartsWith : List Char → List Char → Bool
  | _, [] => true
  | [], _ :: _ => false
  | a :: as, b :: bs => (a == b) && listStartsWith as bs

def listHasSub (sub : List Char) : List Char → Bool
  | [] => sub.isEmpty
  | c :: rest => listStartsWith (c :: rest) sub || listHasSub sub rest

/-- JavaScript String.prototype.includes(sub): substring containment. -/
def jsIncludes (s sub : String) : Bool := listHasSub sub.toList s.toList

/-- Reasons that never get an automatic reconnect (matched by exact
array membership in the source). -/
def permanentDisconnections : List String :=
  ["LOGOUT", "BANNED", "DEPRECATED_VERSION", "USER_LOGOUT"]

/-- Reasons treated as temporary network problems (matched by substring
containment, reason.includes(temp), in the source). -/
def temporaryDisconnections : List String :=
  ["NAVIGATION", "CONFLICT_RESTART", "CONNECTION_MAIN_SYNC_NOT_CONNECTED",
   "Lost connection with WhatsApp"]

/-- Outcome of handleAutomaticReconnection: the reconnectionAttempts
counter after its unconditional increment, paired with the scheduled
reconnect delay in milliseconds (none when no reconnect is scheduled).
The delay the source computes is Math.min(5000 * attempts, 30000). -/
def handleAutomaticReconnection (prevAttempts : Nat) (reason : String) : Nat × Option Nat :=
  let attempts := prevAttempts + 1
  if permanentDisconnections.contains reason then (attempts, none)
  else if 5 < attempts then (attempts, none)
  else if temporaryDisconnections.any (fun t => jsIncludes reason t) then
    (attempts, some (min (5000 * attempts) 30000))
  else (attempts, none)

/-- The delay formula the specification asserts (named after
config.getReconnectionDelay, which computes this formula with default
base 5000 and factor 2 but is never called by the reconnect scheduler):
min(base * factor^(attempts-1), cap) with cap 30000 as claimed. -/
def specReconnectionDelay (attempts : Nat) : Nat :=
  min (5000 * 2 ^ (attempts - 1)) 30000

/- ===================================================================
   reconnectionAttempts counter
   (event handlers in initializeClient, destroyClient and
    handleAutomaticReconnection; src/unnamed/part_001 lines 128, 180,
    194, 230, 1332, 1533, and the same handlers in part_000).
   =================================================================== -/

/-- The session-lifecycle operations that can touch the
reconnectionAttempts counter, one per source handler: the qr,
authenticated, ready, auth_failure, disconnected, change_state and
error engine events, and destroyClient (split by whether the engine
destroy call succeeded, since the increment sits after that await). -/
inductive SessionOp where
  | qr
  | authenticated
  | ready
  | authFailure
  | disconnected (reason : String)
  | changeState
  | clientError
  | destroyClientOk
  | destroyClientErr
deriving Repr, DecidableEq

/-- Effect of each operation on reconnectionAttempts, read off the
handlers: authenticated and ready reset to 0; auth_failure increments;
disconnected increments (inside handleAutomaticReconnection);
destroyClient increments when the engine destroy succeeded; everything
else leaves the counter unchanged. -/
def applyAttempts : SessionOp → Nat → Nat
  | SessionOp.authenticated, _ => 0
  | SessionOp.ready, _ => 0
  | SessionOp.authFailure, a => a + 1
  | SessionOp.disconnected _, a => a + 1
  | SessionOp.destroyClientOk, a => a + 1
  | SessionOp.destroyClientErr, a => a
  | SessionOp.qr, a => a
  | SessionOp.changeState, a => a
  | SessionOp.clientError, a => a

/- ===================================================================
   Restoration promise registry and orphan sweep
   (whatsappService.cleanupOrphanedPromises, src/unnamed/part_000 lines
    980-999, src/unnamed/part_001 lines 359-381).
   =================================================================== -/

/-- A pending restoration promise entry: session id and creation
timestamp (the source always sets createdAt to Date.now() at creation). -/
structure RestorationHandle where
  sessionId : String
  createdAt : Nat
deriving Repr, DecidableEq

/-- The hardcoded orphan threshold maxWaitTime = 5 minutes. -/
def orphanMaxWaitMs : Nat := 5 * 60 * 1000

/-- One run of cleanupOrphanedPromises over the registry at time now:
every entry with a truthy createdAt strictly older than the threshold is
rejected and deleted.  Returns (remaining registry, rejected handles). -/
def cleanupOrphanedPromises (now : Nat) (reg : List RestorationHandle) :
    List RestorationHandle × List RestorationHandle :=
  (reg.filter fun h => !((h.createdAt != 0) && decide (orphanMaxWaitMs < now - h.createdAt)),
   reg.filter fun h => (h.createdAt != 0) && decide (orphanMaxWaitMs < now - h.createdAt))

/- ===================================================================
   Session teardown: stopListening / sendStopListeningCommand /
   destroyClient / cleanupSession
   (src/unnamed/part_001 lines 409-445, 1114-1172, 1295-1342, 704-745).
   =================================================================== -/

/-- A buffered pipeline message as stopListening sees it: a real user
message, or the synthetic GIVE_ME_SUMMARY_N8N command message that
sendStopListeningCommand pushes into each chat buffer before flushing. -/
inductive PMsg where
  | user (id : Nat)
  | summaryCmd
deriving Repr, DecidableEq

/-- Per-session state relevant to teardown: whether an engine client is
bound, whether the message listener is attached (isListening), the
per-chat buffers in Object.keys insertion order (keys are unique), the
chats holding an armed chunk timer, and the reconnectionAttempts
counter. -/
structure Session where
  hasClient : Bool
  isListening : Bool
  buffers : List (String × List PMsg)
  timers : List String
  attempts : Nat
deriving Repr, DecidableEq

/-- Observable teardown events in execution order: a downstream send
attempt for one chat's batch, the detachment of the message listener,
and the function returning with a status. -/
inductive TraceEvent where
  | send (chatId : String) (batch : List PMsg)
  | detachListener
  | ret (status : String)
deriving Repr, DecidableEq

/-- sendStopListeningCommand: for every chat currently keyed in
messageBuffer (regardless of buffered count), push the summary command
message and await sendMessageChunk, which clears that chat's timer and
sends the whole batch; a failed send requeues the batch into the (just
emptied) buffer.  Returns the session after the awaited loop and the
send attempts in order. -/
def sendStopListeningCommand (ok : String → Bool) (s : Session) :
    Session × List TraceEvent :=
  ({ s with
      buffers := s.buffers.map fun e =>
        (e.1, if ok e.1 then [] else e.2 ++ [PMsg.summaryCmd]),
      timers := s.timers.filter fun c => !((s.buffers.map Prod.fst).contains c) },
   s.buffers.map fun e => TraceEvent.send e.1 (e.2 ++ [PMsg.summaryCmd]))

/-- stopListening (the awaited variant, src/unnamed/part_001 lines
409-445): first awaits sendStopListeningCommand (flushing every chat),
then — only if the session was listening — detaches the message
listener, clears every chunk timer, resets the buffers and reports
listening_stopped. -/
def stopListening (ok : String → Bool) (s : Session) : Session × List TraceEvent :=
  let s1 := (sendStopListeningCommand ok s).1
  let evs := (sendStopListeningCommand ok s).2
  if !s.isListening then (s1, evs ++ [TraceEvent.ret "not_listening"])
  else
    ({ s1 with isListening := false, buffers := [], timers := [] },
     evs ++ [TraceEvent.detachListener, TraceEvent.ret "listening_stopped"])

/-- destroyClient: no-op without a client; otherwise detaches the
listener if listening, clears all chunk timers, awaits the engine
destroy and, only when that succeeds, nulls the client handle and
increments reconnectionAttempts (a throwing destroy skips the statements
after the await).  The chat buffers are NOT cleared on either path. -/
def destroyClient (destroyThrows : Bool) (s : Session) : Session :=
  if !s.hasClient then s
  else if destroyThrows then { s with isListening := false, timers := [] }
  else { s with isListening := false, timers := [], hasClient := false,
                attempts := s.attempts + 1 }

/-- Result of cleanupSession: whether the session id is still in the
registry map, whether a restoration promise entry remains, whether the
pending promise (if any) was rejected, the final session record, and the
teardown trace. -/
structure CleanupOutcome where
  inRegistry : Bool
  restorationPresent : Bool
  restorationRejected : Bool
  sess : Session
  trace : List TraceEvent
deriving Repr, DecidableEq

/-- cleanupSession, observed at quiescence (the un-awaited stopListening
call it spawns has completed): rejects and removes any pending
restoration promise first; fires stopListening when the session is
listening; awaits the engine destroy, whose exception is caught and
skips only the remaining try-block statements (cache clear and socket
mark, not modelled); the finally block always deletes the session from
the registry. -/
def cleanupSession (ok : String → Bool) (_destroyThrows : Bool)
    (restorationPresent : Bool) (s : Session) : CleanupOutcome :=
  let s1 := if s.isListening then (stopListening ok s).1 else s
  let tr := if s.isListening then (stopListening ok s).2 else []
  { inRegistry := false
    restorationPresent := false
    restorationRejected := restorationPresent
    sess := s1
    trace := tr }

end WhatsappMulti

namespace WhatsappMulti

theorem sendMessageChunk_of_ne_nil {α : Type} {s : ChatState α} (h : s.buffer ≠ []) :
    sendMessageChunk s =
      { s with timer := false, buffer := [], inflight := s.inflight ++ [s.buffer] } := by
  rw [sendMessageChunk, if_neg]
  simp [List.isEmpty_iff, h]

theorem sendMessageChunk_of_nil {α : Type} {s : ChatState α} (h : s.buffer = []) :
    sendMessageChunk s = { s with timer := false } := by
  rw [sendMessageChunk, if_pos]
  simp [List.isEmpty_iff, h]

theorem enqueuedOf_cons {α : Type} (e : ChatEvent α) (es : List (ChatEvent α)) :
    enqueuedOf (e :: es) = enqHit e ++ enqueuedOf es := by
  cases e <;> simp [enqueuedOf, enqHit]

/-- Helper: flattening after removing the i-th inner list is, up to
permutation, the flattening with that inner list pulled to the front. -/
theorem flatten_eraseIdx_perm {α : Type} :
    ∀ (l : List (List α)) (i : Nat) (b : List α), l.get? i = some b →
      l.flatten.Perm (b ++ (l.eraseIdx i).flatten)
  | [], _, _, h => by cases h
  | x :: t, 0, b, h => by
    cases h
    simp [List.flatten]
  | x :: t, i + 1, b, h => by
    have ih := flatten_eraseIdx_perm t i b h
    simp only [List.flatten_cons, List.eraseIdx_cons_succ]
    refine (ih.append_left x).trans ?_
    rw [← Multiset.coe_eq_coe]
    simp only [← Multiset.coe_add]
    exact add_left_comm _ _ _

/-- Helper: one pipeline step preserves the multiset of accounted
messages, except that an enqueue adds its message at the end. -/
theorem totalMsgs_step_perm {α : Type} (cs : Nat) (s : ChatState α) (e : ChatEvent α) :
    (totalMsgs (chatStep cs s e)).Perm (totalMsgs s ++ enqHit e) := by
  cases e with
  | enqueue m =>
    simp only [chatStep, handleMessage, enqHit]
    split
    · rw [sendMessageChunk_of_ne_nil (by simp)]
      simp [totalMsgs, List.flatten_append, List.append_assoc]
    · split <;> simp [totalMsgs, List.append_assoc]
  | flush =>
    simp only [chatStep, enqHit, List.append_nil]
    rcases hb : s.buffer with _ | ⟨x, xs⟩
    · rw [sendMessageChunk_of_nil hb]
      simp [totalMsgs, hb]
    · rw [sendMessageChunk_of_ne_nil (by rw [hb]; simp)]
      simp [totalMsgs, hb, List.flatten_append, List.append_assoc]
  | complete i ok =>
    simp only [chatStep, completeSend, enqHit, List.append_nil]
    cases hget : s.inflight.get? i with
    | none => simp [totalMsgs]
    | some b =>
      have hperm := flatten_eraseIdx_perm s.inflight i b hget
      have hm : (s.inflight.flatten : Multiset α)
          = (b : Multiset α) + ((s.inflight.eraseIdx i).flatten : Multiset α) := by
        rw [Multiset.coe_add]
        exact Multiset.coe_eq_coe.mpr hperm
      cases ok with
      | true =>
        simp only [if_true, totalMsgs]
        rw [← Multiset.coe_eq_coe]
        simp only [List.flatten_append, List.flatten_cons, List.flatten_nil,
          List.append_nil]
        simp only [← Multiset.coe_add]
        rw [hm]
        abel
      | false =>
        simp only [Bool.false_eq_true, if_false, totalMsgs]
        rw [← Multiset.coe_eq_coe]
        simp only [← Multiset.coe_add]
        rw [hm]
        abel

/-- Helper: over a whole trace, the accounted messages are a permutation
of the initial ones plus everything enqueued. -/
theorem chatRun_totalMsgs_perm {α : Type} (cs : Nat) :
    ∀ (evs : List (ChatEvent α)) (s : ChatState α),
      (totalMsgs (chatRun cs s evs)).Perm (totalMsgs s ++ enqueuedOf evs)
  | [], s => by simp [chatRun, enqueuedOf]
  | e :: es, s => by
    have ih := chatRun_totalMsgs_perm cs es (chatStep cs s e)
    have hstep := totalMsgs_step_perm cs s e
    have hrw : chatRun cs s (e :: es) = chatRun cs (chatStep cs s e) es := rfl
    rw [hrw, enqueuedOf_cons, ← List.append_assoc]
    exact ih.trans (hstep.append_right (enqueuedOf es))

/-- Helper: a FIFO-successful step preserves the accounted messages
exactly (no reordering). -/
theorem totalMsgs_step_fifo {α : Type} (cs : Nat) (s : ChatState α) (e : ChatEvent α)
    (he : (match e with
           | ChatEvent.complete i ok => decide (i = 0) && ok
           | _ => true) = true) :
    totalMsgs (chatStep cs s e) = totalMsgs s ++ enqHit e := by
  cases e with
  | enqueue m =>
    simp only [chatStep, handleMessage, enqHit]
    split
    · rw [sendMessageChunk_of_ne_nil (by simp)]
      simp [totalMsgs, List.flatten_append, List.append_assoc]
    · split <;> simp [totalMsgs, List.append_assoc]
  | flush =>
    simp only [chatStep, enqHit, List.append_nil]
    rcases hb : s.buffer with _ | ⟨x, xs⟩
    · rw [sendMessageChunk_of_nil hb]
      simp [totalMsgs, hb]
    · rw [sendMessageChunk_of_ne_nil (by rw [hb]; simp)]
      simp [totalMsgs, hb, List.flatten_append, List.append_assoc]
  | complete i ok =>
    simp only [Bool.and_eq_true, decide_eq_true_eq] at he
    obtain ⟨hi, hok⟩ := he
    subst hi hok
    simp only [chatStep, completeSend, enqHit, List.append_nil]
    rcases hinf : s.inflight with _ | ⟨b, t⟩
    · simp [totalMsgs]
    · simp only [List.get?, if_true, totalMsgs]
      rw [hinf]
      simp [List.flatten_append, List.append_assoc, List.eraseIdx]

/-- Helper: over a FIFO-successful trace the accounted messages equal
the initial ones followed by everything enqueued, in order. -/
theorem chatRun_totalMsgs_fifo {α : Type} (cs : Nat) :
    ∀ (evs : List (ChatEvent α)) (s : ChatState α), fifoOk evs = true →
      totalMsgs (chatRun cs s evs) = totalMsgs s ++ enqueuedOf evs
  | [], s, _ => by simp [chatRun, enqueuedOf]
  | e :: es, s, h => by
    rw [fifoOk, List.all_cons, Bool.and_eq_true] at h
    have ih := chatRun_totalMsgs_fifo cs es (chatStep cs s e) h.2
    have hstep := totalMsgs_step_fifo cs s e h.1
    have hrw : chatRun cs s (e :: es) = chatRun cs (chatStep cs s e) es := rfl
    rw [hrw, ih, hstep, enqueuedOf_cons, List.append_assoc]

/-- Helper: as long as the buffer stays below the chunk threshold, a run
of enqueues only accumulates the buffer and keeps one timer armed; no
flush is dispatched. -/
theorem chatRun_enqueues_below_threshold {α : Type} (cs : Nat) :
    ∀ (ms : List α) (s : ChatState α),
      s.timer = !s.buffer.isEmpty → s.inflight = [] → s.delivered = [] →
      s.buffer.length + ms.length < cs →
      chatRun cs s (ms.map ChatEvent.enqueue)
        = ⟨s.buffer ++ ms, !(s.buffer ++ ms).isEmpty, [], []⟩
  | [], s, ht, hi, hd, _ => by
    cases s
    simp_all [chatRun]
  | m :: ms, s, ht, hi, hd, hlen => by
    have hstep : chatStep cs s (ChatEvent.enqueue m)
        = { s with buffer := s.buffer ++ [m], timer := true } := by
      have hlt : ¬ cs ≤ s.buffer.length + 1 := by
        simp only [List.length_cons] at hlen
        omega
      simp only [chatStep, handleMessage, if_neg hlt]
      rcases h : s.timer with _ | _
      · simp
      · have : s.buffer.isEmpty = false := by
          rcases hb : s.buffer.isEmpty with _ | _
          · rfl
          · rw [hb] at ht; rw [ht] at h; cases h
        simp
    have ih := chatRun_enqueues_below_threshold cs ms
      ({ s with buffer := s.buffer ++ [m], timer := true })
      (by simp) (by simpa using hi) (by simpa using hd)
      (by simp only [List.length_append, List.length_cons, List.length_nil] at hlen ⊢; omega)
    calc chatRun cs s ((m :: ms).map ChatEvent.enqueue)
        = chatRun cs (chatStep cs s (ChatEvent.enqueue m)) (ms.map ChatEvent.enqueue) := rfl
      _ = ⟨(s.buffer ++ [m]) ++ ms, !((s.buffer ++ [m]) ++ ms).isEmpty, [], []⟩ := by
          rw [hstep]; exact ih
      _ = ⟨s.buffer ++ m :: ms, !(s.buffer ++ m :: ms).isEmpty, [], []⟩ := by
          simp

/-- Helper: membership of a batch in the pipeline state is preserved as a
nonemptiness invariant: every batch ever dispatched is nonempty. -/
theorem batches_nonempty_step {α : Type} (cs : Nat) (s : ChatState α) (e : ChatEvent α)
    (hs : ∀ b : List α, b ∈ s.inflight ∨ b ∈ s.delivered → b ≠ []) :
    ∀ b : List α, b ∈ (chatStep cs s e).inflight ∨ b ∈ (chatStep cs s e).delivered → b ≠ [] := by
  intro b hb
  cases e with
  | enqueue m =>
    simp only [chatStep, handleMessage] at hb
    by_cases hc : cs ≤ s.buffer.length + 1
    · rw [if_pos hc, sendMessageChunk_of_ne_nil (by simp)] at hb
      simp only [List.mem_append, List.mem_singleton] at hb
      rcases hb with (h | h) | h
      · exact hs b (Or.inl h)
      · subst h; simp
      · exact hs b (Or.inr h)
    · rw [if_neg hc] at hb
      split at hb <;> exact hs b hb
  | flush =>
    simp only [chatStep] at hb
    rcases hbuf : s.buffer with _ | ⟨x, xs⟩
    · rw [sendMessageChunk_of_nil hbuf] at hb
      exact hs b hb
    · rw [sendMessageChunk_of_ne_nil (by rw [hbuf]; simp)] at hb
      simp only [List.mem_append, List.mem_singleton] at hb
      rcases hb with (h | h) | h
      · exact hs b (Or.inl h)
      · subst h; rw [hbuf]; simp
      · exact hs b (Or.inr h)
  | complete i ok =>
    simp only [chatStep, completeSend] at hb
    cases hget : s.inflight.get? i with
    | none => rw [hget] at hb; exact hs b hb
    | some c =>
      rw [hget] at hb
      cases ok with
      | true =>
        simp only [if_true, List.mem_append, List.mem_singleton] at hb
        rcases hb with h | h | h
        · exact hs b (Or.inl (List.eraseIdx_subset _ _ h))
        · exact hs b (Or.inr h)
        · subst h; exact hs b (Or.inl (List.get?_mem hget))
      | false =>
        simp only [Bool.false_eq_true, if_false] at hb
        rcases hb with h | h
        · exact hs b (Or.inl (List.eraseIdx_subset _ _ h))
        · exact hs b (Or.inr h)

/-- Helper: batch nonemptiness holds for every state reachable from the
initial state. -/
theorem batches_nonempty_run {α : Type} (cs : Nat) :
    ∀ (evs : List (ChatEvent α)) (s : ChatState α),
      (∀ b : List α, b ∈ s.inflight ∨ b ∈ s.delivered → b ≠ []) →
      ∀ b : List α, b ∈ (chatRun cs s evs).inflight ∨ b ∈ (chatRun cs s evs).delivered → b ≠ []
  | [], _, hs => hs
  | e :: es, s, hs =>
    batches_nonempty_run cs es (chatStep cs s e) (batches_nonempty_step cs s e hs)

/-- C1 counterexample trace: with chunkSize 5, enqueue message 1, the
timer fires capturing batch [1], message 2 arrives while the send is in
flight, and the send fails.  The source appends the failed batch behind
the newly buffered message, so the buffer becomes [2, 1] — not [1, 2] as
the claim (prepend to the front) requires — and the next successful
flush delivers [2, 1]. -/
theorem failed_batch_goes_to_back_cex :
    (chatRun 5 (initChatState (α := Nat))
        [ChatEvent.enqueue 1, ChatEvent.flush, ChatEvent.enqueue 2,
         ChatEvent.complete 0 false]).buffer = [2, 1]
  ∧ (chatRun 5 (initChatState (α := Nat))
        [ChatEvent.enqueue 1, ChatEvent.flush, ChatEvent.enqueue 2,
         ChatEvent.complete 0 false, ChatEvent.flush,
         ChatEvent.complete 0 true]).delivered = [[2, 1]]
  ∧ ([2, 1] : List Nat) ≠ [1, 2] := by
  decide

/-- C1 (amended): when the single in-flight batch b fails, the source
appends it BEHIND the messages q enqueued during the failed send; the
next successful flush for the chat therefore delivers q ++ b — the
interleaved messages first, then the failed batch (whose internal order
is preserved). -/
theorem failed_batch_requeued_at_back {α : Type} (cs : Nat) (s : ChatState α)
    (q b : List α) (hb : s.inflight = [b]) (hq : s.buffer = q) (hne : q ++ b ≠ []) :
    (chatRun cs s [ChatEvent.complete 0 false, ChatEvent.flush,
        ChatEvent.complete 0 true]).delivered = s.delivered ++ [q ++ b]
  ∧ (completeSend 0 false s).buffer = q ++ b := by
  have hget : s.inflight.get? 0 = some b := by rw [hb]; rfl
  have herase : s.inflight.eraseIdx 0 = [] := by rw [hb]; rfl
  have hemp : (q ++ b).isEmpty = false := by
    cases h : q ++ b with
    | nil => exact absurd h hne
    | cons x xs => rfl
  simp only [chatRun, List.foldl, chatStep, completeSend, hget, herase, hq,
    if_neg Bool.false_ne_true, Bool.false_eq_true, if_false]
  simp only [sendMessageChunk, hemp, Bool.false_eq_true, if_false,
    List.nil_append, List.get?, if_true]
  exact ⟨trivial, trivial⟩

/-- Witness for the amended C1 theorem at a concrete state: one failed
in-flight batch [1], buffer [2] enqueued during the send. -/
theorem failed_batch_requeued_at_back_witness :
    (([2] : List Nat) ++ [1] ≠ [])
  ∧ ((chatRun 5 (⟨[2], false, [[1]], []⟩ : ChatState Nat)
        [ChatEvent.complete 0 false, ChatEvent.flush,
         ChatEvent.complete 0 true]).delivered = [] ++ [[2] ++ [1]]
     ∧ (completeSend 0 false (⟨[2], false, [[1]], []⟩ : ChatState Nat)).buffer
         = [2] ++ [1]) :=
  ⟨by decide, failed_batch_requeued_at_back 5 _ [2] [1] rfl rfl (by decide)⟩

/-- C2 counterexample: enqueue 1; the timer flush captures [1]; message 2
arrives during the failed send; the requeue appends [1] behind 2; the
next flush succeeds.  Every enqueued message was delivered exactly once
(buffer and in-flight are empty), yet the concatenation of successful
batches is [2, 1] while the enqueue order was [1, 2]. -/
theorem delivered_concat_order_cex :
    (chatRun 5 (initChatState (α := Nat))
        [ChatEvent.enqueue 1, ChatEvent.flush, ChatEvent.enqueue 2,
         ChatEvent.complete 0 false, ChatEvent.flush,
         ChatEvent.complete 0 true]).delivered.flatten = [2, 1]
  ∧ enqueuedOf [ChatEvent.enqueue 1, ChatEvent.flush, ChatEvent.enqueue 2,
      ChatEvent.complete 0 false, ChatEvent.flush,
      ChatEvent.complete (α := Nat) 0 true] = [1, 2]
  ∧ (chatRun 5 (initChatState (α := Nat))
        [ChatEvent.enqueue 1, ChatEvent.flush, ChatEvent.enqueue 2,
         ChatEvent.complete 0 false, ChatEvent.flush,
         ChatEvent.complete 0 true]).buffer = []
  ∧ (chatRun 5 (initChatState (α := Nat))
        [ChatEvent.enqueue 1, ChatEvent.flush, ChatEvent.enqueue 2,
         ChatEvent.complete 0 false, ChatEvent.flush,
         ChatEvent.complete 0 true]).inflight = []
  ∧ ([2, 1] : List Nat) ≠ [1, 2] := by
  decide

/-- C2 (amended): for every trace of enqueues, flushes (size, timer or
forced) and send completions, the messages of the successful batches
together with the still-buffered and in-flight messages are a
permutation of the enqueued messages (nothing is lost or duplicated);
and when every completion succeeds and completes the oldest in-flight
batch (no failed-and-retried send), that account equals the enqueued
sequence exactly, so the successful batches concatenate to the enqueue
order.  Order across a failed send is NOT preserved (see the
counterexample): messages enqueued during a failed send precede the
failed batch on retry. -/
theorem delivered_concat_conservation {α : Type} (cs : Nat) (evs : List (ChatEvent α)) :
    ((chatRun cs initChatState evs).delivered.flatten
        ++ (chatRun cs initChatState evs).inflight.flatten
        ++ (chatRun cs initChatState evs).buffer).Perm (enqueuedOf evs)
  ∧ (fifoOk evs = true →
      (chatRun cs initChatState evs).delivered.flatten
          ++ (chatRun cs initChatState evs).inflight.flatten
          ++ (chatRun cs initChatState evs).buffer = enqueuedOf evs) := by
  constructor
  · have h := chatRun_totalMsgs_perm cs evs (initChatState (α := α))
    simpa [totalMsgs, initChatState] using h
  · intro hf
    have h := chatRun_totalMsgs_fifo cs evs (initChatState (α := α)) hf
    simpa [totalMsgs, initChatState] using h

/-- Witness for the amended C2 theorem: a concrete FIFO-successful trace
with chunkSize 2 whose size-triggered batch [1, 2] and timer batch [3]
concatenate to the enqueue order [1, 2, 3]. -/
theorem delivered_concat_conservation_witness :
    fifoOk [ChatEvent.enqueue 1, ChatEvent.enqueue 2, ChatEvent.complete 0 true,
        ChatEvent.enqueue 3, ChatEvent.flush, ChatEvent.complete (α := Nat) 0 true] = true
  ∧ (chatRun 2 initChatState
        [ChatEvent.enqueue 1, ChatEvent.enqueue 2, ChatEvent.complete 0 true,
         ChatEvent.enqueue 3, ChatEvent.flush,
         ChatEvent.complete (α := Nat) 0 true]).delivered.flatten
      ++ (chatRun 2 initChatState
        [ChatEvent.enqueue 1, ChatEvent.enqueue 2, ChatEvent.complete 0 true,
         ChatEvent.enqueue 3, ChatEvent.flush,
         ChatEvent.complete (α := Nat) 0 true]).inflight.flatten
      ++ (chatRun 2 initChatState
        [ChatEvent.enqueue 1, ChatEvent.enqueue 2, ChatEvent.complete 0 true,
         ChatEvent.enqueue 3, ChatEvent.flush,
         ChatEvent.complete (α := Nat) 0 true]).buffer
      = enqueuedOf [ChatEvent.enqueue 1, ChatEvent.enqueue 2, ChatEvent.complete 0 true,
         ChatEvent.enqueue 3, ChatEvent.flush, ChatEvent.complete (α := Nat) 0 true] :=
  ⟨by decide,
   (delivered_concat_conservation 2
      [ChatEvent.enqueue 1, ChatEvent.enqueue 2, ChatEvent.complete 0 true,
       ChatEvent.enqueue 3, ChatEvent.flush,
       ChatEvent.complete (α := Nat) 0 true]).2 (by decide)⟩

/-- C6: from an empty buffer with no armed timer, enqueueing exactly
chunkSize messages dispatches an immediate flush carrying all of them
and leaves no timer armed and an empty buffer, while enqueueing exactly
chunkSize - 1 messages dispatches no flush and leaves exactly the armed
timer and the messages buffered. -/
theorem chunk_boundary {α : Type} (cs : Nat) (hcs : 2 ≤ cs) (msgs : List α) :
    (msgs.length = cs →
      chatRun cs initChatState (msgs.map ChatEvent.enqueue) = ⟨[], false, [msgs], []⟩)
  ∧ (msgs.length = cs - 1 →
      chatRun cs initChatState (msgs.map ChatEvent.enqueue) = ⟨msgs, true, [], []⟩) := by
  constructor
  · intro hlen
    rcases msgs.eq_nil_or_concat' with rfl | ⟨as, a, rfl⟩
    · simp at hlen; omega
    · have haslen : as.length + 1 = cs := by simpa using hlen
      have hrun : chatRun cs initChatState (as.map ChatEvent.enqueue)
          = ⟨as, !(as : List α).isEmpty, [], []⟩ := by
        have h := chatRun_enqueues_below_threshold cs as (initChatState (α := α))
          (by simp [initChatState]) rfl rfl (by simp [initChatState]; omega)
        simpa [initChatState] using h
      have hsplit : (as ++ [a]).map ChatEvent.enqueue
          = as.map ChatEvent.enqueue ++ [ChatEvent.enqueue a] := by simp
      rw [hsplit, chatRun, List.foldl_append]
      rw [show List.foldl (chatStep cs) initChatState (as.map ChatEvent.enqueue)
            = chatRun cs initChatState (as.map ChatEvent.enqueue) from rfl, hrun]
      simp only [List.foldl_cons, List.foldl_nil, chatStep, handleMessage]
      rw [if_pos (by omega), sendMessageChunk_of_ne_nil (by simp)]
      simp
  · intro hlen
    have h := chatRun_enqueues_below_threshold cs msgs (initChatState (α := α))
      (by simp [initChatState]) rfl rfl (by simp [initChatState]; omega)
    have hne : msgs ≠ [] := by
      intro hnil
      rw [hnil] at hlen
      simp at hlen
      omega
    have : (msgs : List α).isEmpty = false := by
      simpa [List.isEmpty_iff] using hne
    simpa [initChatState, this] using h

/-- Witness for C6 at the default chunkSize 5: five messages flush
immediately with no timer; four messages arm one timer and flush
nothing. -/
theorem chunk_boundary_witness :
    (2 ≤ 5
      ∧ chatRun 5 initChatState ([1, 2, 3, 4, 5].map ChatEvent.enqueue)
          = (⟨[], false, [[1, 2, 3, 4, 5]], []⟩ : ChatState Nat))
  ∧ chatRun 5 initChatState ([1, 2, 3, 4].map ChatEvent.enqueue)
      = (⟨[1, 2, 3, 4], true, [], []⟩ : ChatState Nat) :=
  ⟨⟨by decide, (chunk_boundary 5 (by decide) [1, 2, 3, 4, 5]).1 (by decide)⟩,
   (chunk_boundary 5 (by decide) [1, 2, 3, 4]).2 (by decide)⟩

/-- C10: a flush of an empty (or absent) chat buffer never calls the
downstream sender — it only cancels the armed timer and leaves the state
otherwise untouched — and consequently every batch that is ever in
flight or delivered in any reachable pipeline state is nonempty (every
downstream send carries count at least 1). -/
theorem empty_flush_noop {α : Type} :
    (∀ s : ChatState α, s.buffer = [] → sendMessageChunk s = { s with timer := false })
  ∧ (∀ (cs : Nat) (evs : List (ChatEvent α)) (b : List α),
      b ∈ (chatRun cs initChatState evs).inflight
        ∨ b ∈ (chatRun cs initChatState evs).delivered → b ≠ []) := by
  constructor
  · intro s h
    exact sendMessageChunk_of_nil h
  · intro cs evs b
    exact batches_nonempty_run cs evs initChatState (by simp [initChatState]) b

/-- Witness for C10: flushing an empty buffer with an armed timer only
clears the timer, and the delivered batch of a concrete successful trace
is nonempty. -/
theorem empty_flush_noop_witness :
    sendMessageChunk (⟨[], true, [], [[7]]⟩ : ChatState Nat) = ⟨[], false, [], [[7]]⟩
  ∧ ([7] : List Nat) ≠ [] :=
  ⟨(empty_flush_noop (α := Nat)).1 ⟨[], true, [], [[7]]⟩ rfl,
   (empty_flush_noop (α := Nat)).2 2 [ChatEvent.enqueue 7, ChatEvent.flush,
      ChatEvent.complete 0 true] [7] (by decide)⟩

/-- C3 counterexample: for the transient reason NAVIGATION at counter
value 3 (within the ceiling), the scheduler computes
min(5000 * 3, 30000) = 15000 ms, while the claimed exponential formula
min(5000 * 2^(3-1), 30000) gives 20000 ms. -/
theorem reconnect_delay_cex :
    (handleAutomaticReconnection 2 "NAVIGATION").2 = some 15000
  ∧ specReconnectionDelay 3 = 20000
  ∧ (15000 : Nat) ≠ 20000 := by
  decide

/-- C3 (amended): for every transient (non-permanent) reason whose
post-increment counter is within the ceiling, the reconnect is scheduled
after min(5000 * attempts, 30000) ms — a LINEAR backoff with base
5000 ms and cap 30000 ms (so attempts 1, 2, 3 give 5 s, 10 s, 15 s). -/
theorem reconnect_delay_linear (prev : Nat) (reason : String)
    (hp : permanentDisconnections.contains reason = false)
    (ht : temporaryDisconnections.any (fun t => jsIncludes reason t) = true)
    (hc : prev + 1 ≤ 5) :
    (handleAutomaticReconnection prev reason).2 = some (min (5000 * (prev + 1)) 30000) := by
  have h5 : ¬ (5 < prev + 1) := by omega
  have hp' : reason ∉ permanentDisconnections := by simpa using hp
  simp [handleAutomaticReconnection, hp', ht, h5]

/-- Witness for the amended C3 theorem: reason NAVIGATION at counter
value 3 schedules after 15000 ms. -/
theorem reconnect_delay_linear_witness :
    permanentDisconnections.contains "NAVIGATION" = false
  ∧ temporaryDisconnections.any (fun t => jsIncludes "NAVIGATION" t) = true
  ∧ 2 + 1 ≤ 5
  ∧ (handleAutomaticReconnection 2 "NAVIGATION").2 = some (min (5000 * (2 + 1)) 30000) :=
  ⟨by decide, by decide, by decide,
   reconnect_delay_linear 2 "NAVIGATION" (by decide) (by decide) (by decide)⟩

/-- C4 counterexample: the reason UNKNOWN_REASON is in neither list and
the counter is far below the ceiling, yet NO reconnect is scheduled: the
source only schedules when the reason contains one of the temporary
markers, so unclassified reasons fall through without a retry. -/
theorem unclassified_no_reconnect_cex :
    (handleAutomaticReconnection 0 "UNKNOWN_REASON").2 = none
  ∧ permanentDisconnections.contains "UNKNOWN_REASON" = false
  ∧ temporaryDisconnections.any (fun t => jsIncludes "UNKNOWN_REASON" t) = false
  ∧ 0 + 1 ≤ 5 := by
  decide

/-- C4 (amended): a disconnect reason that is neither in the permanent
list nor contains any temporary marker never schedules a reconnect,
regardless of the attempts counter: unclassified reasons take the
NO-retry path. -/
theorem unclassified_no_reconnect (prev : Nat) (reason : String)
    (_hp : permanentDisconnections.contains reason = false)
    (ht : temporaryDisconnections.any (fun t => jsIncludes reason t) = false) :
    (handleAutomaticReconnection prev reason).2 = none := by
  by_cases h5 : 5 < prev + 1 <;> simp [handleAutomaticReconnection, ht, h5]

/-- Witness for the amended C4 theorem at the unclassified reason
UNKNOWN_REASON with one attempt. -/
theorem unclassified_no_reconnect_witness :
    permanentDisconnections.contains "UNKNOWN_REASON" = false
  ∧ temporaryDisconnections.any (fun t => jsIncludes "UNKNOWN_REASON" t) = false
  ∧ (handleAutomaticReconnection 0 "UNKNOWN_REASON").2 = none :=
  ⟨by decide, by decide, unclassified_no_reconnect 0 "UNKNOWN_REASON" (by decide) (by decide)⟩

/-- C5 counterexample: destroyClient on a session with a bound client
(successful engine destroy) increments reconnectionAttempts from 0 to 1,
although client destruction is neither disconnect handling nor
auth-failure handling. -/
theorem attempts_destroy_increment_cex :
    (destroyClient false (⟨true, false, [], [], 0⟩ : Session)).attempts = 1
  ∧ applyAttempts SessionOp.destroyClientOk 0 = 1
  ∧ (0 : Nat) < 1 := by
  decide

/-- C5 (amended): the reconnectionAttempts counter decreases only by the
reset to 0 performed by the authenticated and ready handlers, and
increases (always by exactly 1) only in auth-failure handling,
disconnect handling, or a successful destroyClient; all other
operations leave it unchanged. -/
theorem attempts_monotonicity (op : SessionOp) (a : Nat) :
    (applyAttempts op a < a →
        (op = SessionOp.authenticated ∨ op = SessionOp.ready) ∧ applyAttempts op a = 0)
  ∧ (a < applyAttempts op a →
        (op = SessionOp.authFailure ∨ (∃ r, op = SessionOp.disconnected r)
            ∨ op = SessionOp.destroyClientOk)
          ∧ applyAttempts op a = a + 1)
  ∧ ((op = SessionOp.authenticated ∨ op = SessionOp.ready) → applyAttempts op a = 0) := by
  cases op <;> simp [applyAttempts]

/-- Witness for the amended C5 theorem: an auth failure at counter 3
increments to 4, and a ready event resets 3 to 0. -/
theorem attempts_monotonicity_witness :
    ((SessionOp.authFailure = SessionOp.authenticated ∨ SessionOp.authFailure = SessionOp.ready)
        ∧ applyAttempts SessionOp.authFailure 3 = 0
      → False)
  ∧ ((SessionOp.authFailure = SessionOp.authFailure
        ∨ (∃ r, SessionOp.authFailure = SessionOp.disconnected r)
        ∨ SessionOp.authFailure = SessionOp.destroyClientOk)
      ∧ applyAttempts SessionOp.authFailure 3 = 3 + 1)
  ∧ applyAttempts SessionOp.ready 3 = 0 :=
  ⟨by decide,
   (attempts_monotonicity SessionOp.authFailure 3).2.1 (by decide),
   (attempts_monotonicity SessionOp.ready 3).2.2 (Or.inr rfl)⟩

/-- C7: when a listening session is stopped, the trace consists of one
downstream send attempt per chat keyed in the buffer map — each batch
carrying that chat's buffered messages in full, in order, with the
summary command appended, regardless of batch size — followed by the
listener detachment and only then the listening_stopped result; every
buffered chat is covered by a send attempt, and the resulting session is
no longer listening and holds no buffers and no armed timers. -/
theorem stopListening_flushes_before_detach (ok : String → Bool) (s : Session)
    (hl : s.isListening = true) :
    (stopListening ok s).2
      = (s.buffers.map fun e => TraceEvent.send e.1 (e.2 ++ [PMsg.summaryCmd]))
        ++ [TraceEvent.detachListener, TraceEvent.ret "listening_stopped"]
  ∧ (∀ e ∈ s.buffers,
      TraceEvent.send e.1 (e.2 ++ [PMsg.summaryCmd]) ∈ (stopListening ok s).2)
  ∧ (stopListening ok s).1.isListening = false
  ∧ (stopListening ok s).1.buffers = []
  ∧ (stopListening ok s).1.timers = [] := by
  refine ⟨by simp [stopListening, sendStopListeningCommand, hl], ?_,
    by simp [stopListening, hl], by simp [stopListening, hl], by simp [stopListening, hl]⟩
  intro e he
  have hmem : TraceEvent.send e.1 (e.2 ++ [PMsg.summaryCmd])
      ∈ s.buffers.map fun e => TraceEvent.send e.1 (e.2 ++ [PMsg.summaryCmd]) :=
    List.mem_map_of_mem _ he
  simp only [stopListening, sendStopListeningCommand, hl, Bool.not_true, Bool.false_eq_true,
    if_false, List.mem_append]
  exact Or.inl hmem

/-- Witness for C7: a listening session with a buffered chat a and an
empty-keyed chat b, flushed against an always-failing downstream — both
send attempts still happen, before the detach and the return. -/
theorem stopListening_flushes_before_detach_witness :
    (stopListening (fun _ => false)
        (⟨true, true, [("a", [PMsg.user 1]), ("b", [])], ["a"], 0⟩ : Session)).2
      = ([("a", [PMsg.user 1]), ("b", ([] : List PMsg))].map
            fun e => TraceEvent.send e.1 (e.2 ++ [PMsg.summaryCmd]))
        ++ [TraceEvent.detachListener, TraceEvent.ret "listening_stopped"]
  ∧ (∀ e ∈ ([("a", [PMsg.user 1]), ("b", [])] : List (String × List PMsg)),
      TraceEvent.send e.1 (e.2 ++ [PMsg.summaryCmd])
        ∈ (stopListening (fun _ => false)
            (⟨true, true, [("a", [PMsg.user 1]), ("b", [])], ["a"], 0⟩ : Session)).2)
  ∧ (stopListening (fun _ => false)
        (⟨true, true, [("a", [PMsg.user 1]), ("b", [])], ["a"], 0⟩ : Session)).1.isListening
      = false
  ∧ (stopListening (fun _ => false)
        (⟨true, true, [("a", [PMsg.user 1]), ("b", [])], ["a"], 0⟩ : Session)).1.buffers = []
  ∧ (stopListening (fun _ => false)
        (⟨true, true, [("a", [PMsg.user 1]), ("b", [])], ["a"], 0⟩ : Session)).1.timers = [] :=
  stopListening_flushes_before_detach (fun _ => false)
    (⟨true, true, [("a", [PMsg.user 1]), ("b", [])], ["a"], 0⟩ : Session) rfl

/-- C8 counterexample: a session whose client was destroyed earlier
(destroyClient detaches the listener but clears no buffers) still holds
a buffered, never-flushed message when cleanupSession completes: the id
is removed from the registry, but the record was not released with empty
buffers, contradicting the claim that the destroyed session retains no
buffers. -/
theorem cleanup_retains_buffer_cex :
    destroyClient false (⟨true, true, [("c", [PMsg.user 1])], ["c"], 0⟩ : Session)
      = (⟨false, false, [("c", [PMsg.user 1])], [], 1⟩ : Session)
  ∧ (cleanupSession (fun _ => true) false false
        (⟨false, false, [("c", [PMsg.user 1])], [], 1⟩ : Session)).inRegistry = false
  ∧ (cleanupSession (fun _ => true) false false
        (⟨false, false, [("c", [PMsg.user 1])], [], 1⟩ : Session)).sess.buffers
      = [("c", [PMsg.user 1])]
  ∧ ([("c", [PMsg.user 1])] : List (String × List PMsg)) ≠ [] := by
  decide

/-- C8 (amended): after cleanupSession completes — even when the engine
destroy throws — the session id is removed from the registry and any
pending restoration promise has been rejected and removed; no armed
chunk timer survives (given the invariant that non-listening sessions
hold no armed timers); and the buffers are flushed and cleared whenever
the session was still listening.  A session that had already passed
through destroyClient may retain unflushed buffered messages in its
record at removal (see the counterexample). -/
theorem cleanupSession_releases (ok : String → Bool) (destroyThrows restorationWas : Bool)
    (s : Session) (hinv : s.isListening = false → s.timers = []) :
    (cleanupSession ok destroyThrows restorationWas s).inRegistry = false
  ∧ (cleanupSession ok destroyThrows restorationWas s).restorationPresent = false
  ∧ (cleanupSession ok destroyThrows restorationWas s).restorationRejected = restorationWas
  ∧ (cleanupSession ok destroyThrows restorationWas s).sess.timers = []
  ∧ (s.isListening = true →
      (cleanupSession ok destroyThrows restorationWas s).sess.buffers = []) := by
  rcases hl : s.isListening with _ | _
  · simp [cleanupSession, hl, hinv hl]
  · simp [cleanupSession, stopListening, hl]

/-- Witness for the amended C8 theorem on a listening session with a
buffered chat and a throwing engine destroy. -/
theorem cleanupSession_releases_witness :
    (cleanupSession (fun _ => true) true true
        (⟨true, true, [("c", [PMsg.user 1])], ["c"], 2⟩ : Session)).inRegistry = false
  ∧ (cleanupSession (fun _ => true) true true
        (⟨true, true, [("c", [PMsg.user 1])], ["c"], 2⟩ : Session)).restorationPresent = false
  ∧ (cleanupSession (fun _ => true) true true
        (⟨true, true, [("c", [PMsg.user 1])], ["c"], 2⟩ : Session)).restorationRejected = true
  ∧ (cleanupSession (fun _ => true) true true
        (⟨true, true, [("c", [PMsg.user 1])], ["c"], 2⟩ : Session)).sess.timers = []
  ∧ ((⟨true, true, [("c", [PMsg.user 1])], ["c"], 2⟩ : Session).isListening = true →
      (cleanupSession (fun _ => true) true true
        (⟨true, true, [("c", [PMsg.user 1])], ["c"], 2⟩ : Session)).sess.buffers = []) :=
  cleanupSession_releases (fun _ => true) true true
    (⟨true, true, [("c", [PMsg.user 1])], ["c"], 2⟩ : Session) (by decide)

/-- C9: one run of the orphan sweep at time now leaves no handle whose
age strictly exceeds the five-minute threshold (the source guards on a
truthy createdAt, which always holds since handles are created with
Date.now()), and every over-age handle is in the rejected list and out
of the remaining registry. -/
theorem sweep_removes_expired (now : Nat) (reg : List RestorationHandle)
    (h0 : ∀ p ∈ reg, p.createdAt ≠ 0) :
    (∀ p ∈ (cleanupOrphanedPromises now reg).1, now - p.createdAt ≤ orphanMaxWaitMs)
  ∧ (∀ p ∈ reg, orphanMaxWaitMs < now - p.createdAt →
      p ∈ (cleanupOrphanedPromises now reg).2
        ∧ p ∉ (cleanupOrphanedPromises now reg).1) := by
  constructor
  · intro p hp
    simp only [cleanupOrphanedPromises, List.mem_filter, Bool.not_eq_eq_eq_not,
      Bool.and_eq_true, bne_iff_ne, decide_eq_true_eq] at hp
    obtain ⟨hmem, hcond⟩ := hp
    by_contra hgt
    push_neg at hgt
    have h1 : p.createdAt ≠ 0 := h0 p hmem
    simp [h1, hgt] at hcond
  · intro p hp hold
    have h1 : p.createdAt ≠ 0 := h0 p hp
    constructor
    · simp only [cleanupOrphanedPromises, List.mem_filter, Bool.and_eq_true,
        bne_iff_ne, decide_eq_true_eq]
      exact ⟨hp, h1, hold⟩
    · simp only [cleanupOrphanedPromises, List.mem_filter]
      intro hc
      simp [h1, hold] at hc

/-- Witness for C9 at a concrete registry: the handle aged 400000 ms is
rejected and removed, the fresh one remains. -/
theorem sweep_removes_expired_witness :
    (∀ p ∈ (cleanupOrphanedPromises 400001
        [⟨"a", 1⟩, ⟨"b", 399000⟩]).1, 400001 - p.createdAt ≤ orphanMaxWaitMs)
  ∧ (∀ p ∈ ([⟨"a", 1⟩, ⟨"b", 399000⟩] : List RestorationHandle),
      orphanMaxWaitMs < 400001 - p.createdAt →
      p ∈ (cleanupOrphanedPromises 400001 [⟨"a", 1⟩, ⟨"b", 399000⟩]).2
        ∧ p ∉ (cleanupOrphanedPromises 400001 [⟨"a", 1⟩, ⟨"b", 399000⟩]).1) :=
  sweep_removes_expired 400001 [⟨"a", 1⟩, ⟨"b", 399000⟩] (by decide)

end WhatsappMulti
